import Mathlib

/-!
Verification of the service-orchestration and metrics-collection core of the
beatrice daemon, as a shallow embedding of the Python sources:

* `src/daemon/service.py` — the abstract service lifecycle contract
  (`ServiceState`, `ServiceHealth`, `BaseService.recover`,
  `BaseService.check_dependencies`).
* `src/daemon/services/gpu_monitor.py` — the concrete telemetry-collection
  service (`GPUMonitorService.start/stop/check_health`, the sampling pass
  `_collect_and_send_stats`, and the platform backends).
* `src/daemon/core.py` — the daemon supervisor (`BeatriceDaemon.stop`, the
  handoff `queue.Queue`).

Modelling conventions: wall-clock instants are integers (seconds); every call
to `datetime.now` becomes an explicit `now` parameter.  Calls into the
outside world (`system_profiler`, `psutil`, NVML, WMI) are parameters
describing what the call returned or that it raised.  A Python function that
may raise is modelled so that a raise at each `try`/`except` boundary is an
explicit input; the `except` handlers are translated as written.  Percentages
and byte counts that Python holds as floats are carried at integer precision
(no claim depends on fractional values).  Cooperative-concurrency effects
(locks, `asyncio.sleep`, task cancellation) appear as explicit state fields
or effect-trace entries.
-/

namespace Beatrice

/-- The `ServiceState` enum of `src/daemon/service.py`. -/
inductive ServiceState where
  | INIT
  | STARTING
  | RUNNING
  | STOPPING
  | STOPPED
  | ERROR
  | RECOVERING
deriving DecidableEq, Repr

/-- The `.value` string of each `ServiceState` member. -/
def ServiceState.value : ServiceState → String
  | .INIT => "initialized"
  | .STARTING => "starting"
  | .RUNNING => "running"
  | .STOPPING => "stopping"
  | .STOPPED => "stopped"
  | .ERROR => "error"
  | .RECOVERING => "recovering"

/-- How Python renders a `ServiceState` member inside an f-string
(`str` of an enum member). -/
def ServiceState.pystr : ServiceState → String
  | .INIT => "ServiceState.INIT"
  | .STARTING => "ServiceState.STARTING"
  | .RUNNING => "ServiceState.RUNNING"
  | .STOPPING => "ServiceState.STOPPING"
  | .STOPPED => "ServiceState.STOPPED"
  | .ERROR => "ServiceState.ERROR"
  | .RECOVERING => "ServiceState.RECOVERING"

/-- A value of the loosely-typed `metrics` dict of `ServiceHealth`
(string, number, boolean or `None`). -/
inductive MetricValue where
  | str (s : String)
  | num (n : Int)
  | flag (b : Bool)
  | null
deriving DecidableEq, Repr

/-- The `ServiceHealth` value object of `src/daemon/service.py`. -/
structure ServiceHealth where
  status : Bool
  last_check : Int
  error_count : Nat
  last_error : Option String
  metrics : List (String × MetricValue)
  recovery_attempts : Nat
  last_recovery : Option Int
deriving DecidableEq, Repr

/-- `ServiceHealth.__init__`: fresh health snapshot (the constructor stamps
`last_check` with the current time). -/
def ServiceHealth.init (now : Int) : ServiceHealth :=
  { status := false
    last_check := now
    error_count := 0
    last_error := none
    metrics := []
    recovery_attempts := 0
    last_recovery := none }

/-- The state a `BaseService` instance carries (`src/daemon/service.py`,
`BaseService.__init__`), apart from the dependency registry which the
dependency-checking function receives explicitly. -/
structure BaseServiceData where
  name : String
  state : ServiceState
  health : ServiceHealth
  is_running : Bool
  is_critical : Bool
  max_recovery_attempts : Nat
  recovery_delay : Int
deriving DecidableEq, Repr

/-- `BaseService.__init__` with the default knobs
(`_max_recovery_attempts = 3`, `_recovery_delay = 5.0`). -/
def BaseServiceData.init (name : String) (now : Int) : BaseServiceData :=
  { name := name
    state := ServiceState.INIT
    health := ServiceHealth.init now
    is_running := false
    is_critical := false
    max_recovery_attempts := 3
    recovery_delay := 5 }

/-- What awaiting a dependency's `check_health()` did, as seen by
`check_dependencies`: it reported healthy, it reported unhealthy, or it
raised. -/
inductive DepOutcome where
  | healthy
  | unhealthy
  | raised
deriving DecidableEq, Repr

/-- One entry of the `_dependencies` registry together with the behaviour its
`check_health()` exhibits when awaited. -/
structure Dependency where
  name : String
  outcome : DepOutcome
deriving DecidableEq, Repr

/-- The marker `check_dependencies` appends to `failed_deps` for one
dependency: nothing when healthy, the bare name when unhealthy, the name
suffixed " (error)" when its health check raised. -/
def failedDepMarker (d : Dependency) : Option String :=
  match d.outcome with
  | DepOutcome.healthy => none
  | DepOutcome.unhealthy => some d.name
  | DepOutcome.raised => some (d.name ++ " (error)")

/-- `BaseService.check_dependencies` (`src/daemon/service.py` lines 81-100):
returns the boolean result and the service state after the call (only
`health.last_error` can change, and only on failure). -/
def BaseServiceData.check_dependencies (svc : BaseServiceData)
    (deps : List Dependency) : Bool × BaseServiceData :=
  if deps.isEmpty then (true, svc)
  else
    let failed_deps := deps.filterMap failedDepMarker
    if failed_deps.isEmpty then (true, svc)
    else
      (false, { svc with health := { svc.health with
        last_error :=
          some ("Failed dependencies: " ++ String.intercalate ", " failed_deps) } })

/-- One externally visible effect of a recovery cycle: the calls
`recover` makes between its bookkeeping steps. -/
inductive RecoverEffect where
  | stopCall
  | sleepFor (seconds : Int)
  | startCall
  | healthCall
deriving DecidableEq, Repr

/-- How one recovery cycle (stop, delay, start, settle, health check) turned
out: the post-restart health check reported healthy, reported unhealthy, or
some step raised after `k` of the cycle's effects had happened. -/
inductive RecoverCycle where
  | healthy
  | unhealthy
  | raisedAfter (k : Nat)
deriving DecidableEq, Repr

/-- The effects of a full recovery cycle, in order: `stop()`, sleep for
`recovery_delay`, `start()`, sleep 1 s, `check_health()`. -/
def recoverCycleTrace (recovery_delay : Int) : List RecoverEffect :=
  [RecoverEffect.stopCall, RecoverEffect.sleepFor recovery_delay,
   RecoverEffect.startCall, RecoverEffect.sleepFor 1, RecoverEffect.healthCall]

/-- `BaseService.recover` (`src/daemon/service.py` lines 102-141): result,
service state after the call, and the trace of stop/sleep/start/health-check
effects it performed.  The transient `RECOVERING` state set before `stop()`
is always overwritten by `RUNNING` or `ERROR` before `recover` returns. -/
def BaseServiceData.recover (svc : BaseServiceData) (now : Int)
    (cycle : RecoverCycle) : Bool × BaseServiceData × List RecoverEffect :=
  if svc.max_recovery_attempts ≤ svc.health.recovery_attempts then
    (false, { svc with state := ServiceState.ERROR }, [])
  else
    let svc1 := { svc with health := { svc.health with
      recovery_attempts := svc.health.recovery_attempts + 1
      last_recovery := some now } }
    match cycle with
    | RecoverCycle.healthy =>
        (true, { svc1 with
          state := ServiceState.RUNNING
          health := { svc1.health with error_count := 0, recovery_attempts := 0 } },
         recoverCycleTrace svc.recovery_delay)
    | RecoverCycle.unhealthy =>
        (false, { svc1 with state := ServiceState.ERROR },
         recoverCycleTrace svc.recovery_delay)
    | RecoverCycle.raisedAfter k =>
        (false, { svc1 with state := ServiceState.ERROR },
         (recoverCycleTrace svc.recovery_delay).take k)

/-- `n` consecutive recovery cycles whose post-restart health check fails
(each one a full `recover()` call with outcome `unhealthy`). -/
def BaseServiceData.failedRecoveries (svc : BaseServiceData) (now : Int) :
    Nat → BaseServiceData
  | 0 => svc
  | Nat.succ n =>
      ((svc.failedRecoveries now n).recover now RecoverCycle.unhealthy).2.1

/-! ### The handoff queue (`queue.Queue` as used by `src/daemon/core.py`) -/

/-- A Python `queue.Queue`: a bounded FIFO.  `maxsize <= 0` means an infinite
queue (the daemon constructs its `update_queue` with the default
`maxsize = 0`). -/
structure PyQueue (α : Type) where
  maxsize : Int
  items : List α
deriving DecidableEq, Repr

/-- `Queue.qsize()`. -/
def PyQueue.qsize {α : Type} (q : PyQueue α) : Nat := q.items.length

/-- `Queue.put_nowait(item)`: `none` models the `queue.Full` exception
(raised exactly when `0 < maxsize ≤ qsize()`); otherwise the item is
appended.  The call never waits. -/
def PyQueue.put_nowait {α : Type} (q : PyQueue α) (x : α) : Option (PyQueue α) :=
  if 0 < q.maxsize ∧ q.maxsize ≤ (q.items.length : Int) then none
  else some { q with items := q.items ++ [x] }

/-! ### Platform backends of `src/daemon/services/gpu_monitor.py` -/

/-- The module-level platform/library flags of `gpu_monitor.py`
(`IS_MACOS`, `IS_WINDOWS`, `IS_LINUX`, `NVIDIA_AVAILABLE`,
`WMI_AVAILABLE`). -/
structure PlatformConfig where
  is_macos : Bool
  is_windows : Bool
  is_linux : Bool
  nvidia_available : Bool
  wmi_available : Bool
deriving DecidableEq, Repr

/-- One per-device stats dict as both `_get_macos_gpu_info` and
`_get_nvidia_gpu_info` build it.  Fields Python fills with `None`
(unsupported or failed queries) are `Option`s; string fields Python fills
with "N/A" placeholders stay strings. -/
structure GpuStats where
  id : Nat
  model : String
  vendor : String
  vram : String
  device_id : String
  vendor_id : String
  bus : String
  metal_family : String
  temperature : Option Int
  utilization : Int
  memory_used : Int
  memory_total : Int
  power_usage : Option Int
  fan_speed : Option Int
deriving DecidableEq, Repr

/-- One dict built by `_get_windows_wmi_gpu_info` from a
`Win32_VideoController` row. -/
structure WmiData where
  id : Nat
  wmi_name : Option String
  wmi_adapter_ram : Option Int
  wmi_driver_version : Option String
  wmi_video_processor : Option String
  wmi_resolution : String
  wmi_refresh_rate : Option Int
deriving DecidableEq, Repr

/-- One element of `stats_data["gpus"]`: a plain device dict, a device dict
that WMI fields were merged into (`nvml_gpu.update(matching_wmi)`, which
also overwrites `"id"`), or a bare WMI dict used when only WMI data was
available (such a dict has no `"model"` key). -/
inductive GpuEntry where
  | device (s : GpuStats)
  | merged (s : GpuStats) (w : WmiData)
  | wmiOnly (w : WmiData)
deriving DecidableEq, Repr

/-- `g.get("model")` on one `gpus` entry: `wmiOnly` dicts have no `"model"`
key, so the lookup yields `None`. -/
def GpuEntry.get_model : GpuEntry → Option String
  | GpuEntry.device s => some s.model
  | GpuEntry.merged s _ => some s.model
  | GpuEntry.wmiOnly _ => none

/-- A `psutil` sample (`cpu_percent`, `virtual_memory().used/.total`). -/
structure SysSample where
  cpu_percent : Int
  mem_used : Int
  mem_total : Int
deriving DecidableEq, Repr

/-- One entry of the parsed `SPDisplaysDataType` JSON array, restricted to
the keys `_get_macos_gpu_info` reads; `none` models an absent key. -/
structure DisplayEntry where
  raw_name : Option String
  sppci_model : Option String
  spdisplays_vendor : Option String
  spdisplays_vram : Option String
  spdisplays_device_id : Option String
  sppci_device_id : Option String
  spdisplays_vendor_id : Option String
  sppci_vendor_id : Option String
  spdisplays_pcislot : Option String
  sppci_bus : Option String
  spdisplays_metal_family : Option String
deriving DecidableEq, Repr

/-- Python truthiness of an optional string: `None` and the empty string are
falsy. -/
def strFalsy : Option String → Bool
  | none => true
  | some s => s.isEmpty

/-- The model-name computation of `_get_macos_gpu_info`:
`name = gpu_data.get("_name") if IS_MACOS else gpu_data.get("sppci_model")`,
then `if not name: name = gpu_data.get("sppci_model", "Unknown GPU")`. -/
def displayName (is_macos : Bool) (e : DisplayEntry) : String :=
  let n := if is_macos then e.raw_name else e.sppci_model
  if strFalsy n then e.sppci_model.getD "Unknown GPU"
  else n.getD "Unknown GPU"

/-- The vendor computation of `_get_macos_gpu_info`:
`gpu_data.get("spdisplays_vendor", "Unknown").split('(')[0].strip()`. -/
def vendorName (e : DisplayEntry) : String :=
  ((((e.spdisplays_vendor.getD "Unknown").splitOn "(").headD "").trim)

/-- The per-device dict `_get_macos_gpu_info` appends for one parsed
display entry. -/
def macGpuStats (is_macos : Bool) (idx : Nat) (e : DisplayEntry)
    (sys : SysSample) : GpuStats :=
  { id := idx
    model := displayName is_macos e
    vendor := vendorName e
    vram := e.spdisplays_vram.getD "N/A"
    device_id := e.spdisplays_device_id.getD (e.sppci_device_id.getD "N/A")
    vendor_id := e.spdisplays_vendor_id.getD (e.sppci_vendor_id.getD "N/A")
    bus := e.spdisplays_pcislot.getD (e.sppci_bus.getD "N/A")
    metal_family := e.spdisplays_metal_family.getD "N/A"
    temperature := none
    utilization := sys.cpu_percent
    memory_used := sys.mem_used
    memory_total := sys.mem_total
    power_usage := none
    fan_speed := none }

/-- The aggregate "System Stats" pseudo-device appended by the fallback block
at the end of `_get_macos_gpu_info`. -/
def systemStatsEntry (sys : SysSample) : GpuStats :=
  { id := 0
    model := "System Stats"
    vendor := "N/A"
    vram := "N/A"
    device_id := "N/A"
    vendor_id := "N/A"
    bus := "N/A"
    metal_family := "N/A"
    temperature := none
    utilization := sys.cpu_percent
    memory_used := sys.mem_used
    memory_total := sys.mem_total
    power_usage := none
    fan_speed := none }

/-- What the `system_profiler` pipeline of `_get_macos_gpu_info` produced:
the command failed or printed nothing (`_run_command` returned `None` or
an empty string), `json.loads` raised, or a parsed `SPDisplaysDataType`
array. -/
inductive ProfilerResult where
  | cmdFailed
  | jsonError
  | parsed (display_info : List DisplayEntry)
deriving DecidableEq, Repr

/-- How the `try` block of `_get_macos_gpu_info` was left: through one of its
explicit `return []` statements (which bypass the fallback block), or by
falling through to the code after the `try` (normal completion, or a caught
exception). -/
inductive MacTryExit where
  | earlyReturn (gpus : List GpuStats)
  | fellThrough (gpus : List GpuStats)
deriving DecidableEq, Repr

/-- The `try` block of `_get_macos_gpu_info` (`gpu_monitor.py` lines
123-155).  `sysMain = none` models the in-block `psutil` calls raising (the
generic `except` catches and leaves `gpus` empty). -/
def macosTryBlock (is_macos : Bool) (prof : ProfilerResult)
    (sysMain : Option SysSample) : MacTryExit :=
  match prof with
  | ProfilerResult.cmdFailed => MacTryExit.earlyReturn []
  | ProfilerResult.jsonError => MacTryExit.fellThrough []
  | ProfilerResult.parsed display_info =>
      if display_info.isEmpty then MacTryExit.earlyReturn []
      else
        match sysMain with
        | none => MacTryExit.fellThrough []
        | some sys =>
            MacTryExit.fellThrough
              (display_info.enum.map (fun p => macGpuStats is_macos p.1 p.2 sys))

/-- `GPUMonitorService._get_macos_gpu_info` (`gpu_monitor.py` lines 121-171).
`sysFallback = none` models the fallback block's own `psutil` calls raising
("Failed to get even basic system stats"). -/
def get_macos_gpu_info (is_macos : Bool) (prof : ProfilerResult)
    (sysMain sysFallback : Option SysSample) : List GpuStats :=
  match macosTryBlock is_macos prof sysMain with
  | MacTryExit.earlyReturn gpus => gpus
  | MacTryExit.fellThrough gpus =>
      if gpus.isEmpty then
        match sysFallback with
        | some sys => [systemStatsEntry sys]
        | none => []
      else gpus

/-- Python's `hex` on a nonnegative integer. -/
def hexString (n : Nat) : String :=
  "0x" ++ (Nat.toDigits 16 n).asString

/-- One NVML device as `_get_nvidia_gpu_info` observes it; `none` fields
model queries that raised `NVMLError_NotSupported` or another caught
exception. -/
structure NvidiaDeviceRaw where
  name : String
  temperature : Int
  util_gpu : Int
  mem_used : Int
  mem_total : Int
  power_usage : Option Int
  fan_speed : Option Int
  pci_device_id : Option Nat
  pci_vendor_id : Option Nat
  pci_bus : Option String
deriving DecidableEq, Repr

/-- Round-half-even of the exact rational `v / d` to one decimal place,
rendered the way Python's `f"{x:.1f}"` renders it (the binary-float
representation error of the original is abstracted away; no claim depends
on the digits).  Requires `0 ≤ v` and `0 < d`, which is how
`format_bytes` calls it. -/
def oneDecimalString (v d : Int) : String :=
  let n : Int := 10 * v
  let q : Int := n / d
  let r : Int := n % d
  let rounded : Int :=
    if 2 * r < d then q
    else if d < 2 * r then q + 1
    else if q % 2 = 0 then q else q + 1
  toString (rounded / 10) ++ "." ++ toString (rounded % 10)

/-- `format_bytes` of `src/utils/helpers.py` on an integer byte count
(`none` models a `None` argument). -/
def format_bytes (bytes_val : Option Int) : String :=
  match bytes_val with
  | none => "N/A"
  | some v =>
      if v < 0 then "Invalid"
      else if v < 1024 then toString v ++ " B"
      else if v < 1024 ^ 2 then oneDecimalString v 1024 ++ " KiB"
      else if v < 1024 ^ 3 then oneDecimalString v (1024 ^ 2) ++ " MiB"
      else oneDecimalString v (1024 ^ 3) ++ " GiB"

/-- The per-device dict `_get_nvidia_gpu_info` appends for device `i`. -/
def nvidiaGpuStats (i : Nat) (d : NvidiaDeviceRaw) : GpuStats :=
  { id := i
    model := d.name
    vendor := "NVIDIA"
    vram := format_bytes (some d.mem_total)
    device_id := match d.pci_device_id with
      | some n => hexString n
      | none => "N/A"
    vendor_id := match d.pci_vendor_id with
      | some n => hexString n
      | none => "N/A"
    bus := d.pci_bus.getD "N/A"
    metal_family := "N/A"
    temperature := some d.temperature
    utilization := d.util_gpu
    memory_used := d.mem_used
    memory_total := d.mem_total
    power_usage := d.power_usage
    fan_speed := d.fan_speed }

/-- `GPUMonitorService._get_nvidia_gpu_info` (`gpu_monitor.py` lines
173-215): empty when NVML is not initialized; otherwise one dict per
successfully queried device (an `NVMLError` part-way through would return
the prefix gathered so far; `devices` is the successfully queried list). -/
def get_nvidia_gpu_info (nvidia_initialized : Bool)
    (devices : List NvidiaDeviceRaw) : List GpuStats :=
  if nvidia_initialized then devices.enum.map (fun p => nvidiaGpuStats p.1 p.2)
  else []

/-- `GPUMonitorService._get_windows_wmi_gpu_info` (`gpu_monitor.py` lines
217-247): empty unless WMI is available and the connection was established;
otherwise one dict per queried `Win32_VideoController` row. -/
def get_windows_wmi_gpu_info (wmi_available wmi_connection : Bool)
    (controllers : List WmiData) : List WmiData :=
  if wmi_available && wmi_connection then controllers else []

/-- Python's `needle in hay` substring test for a nonempty needle
(the caller has already checked the needle is truthy). -/
def strContains (hay needle : String) : Bool :=
  2 ≤ (hay.splitOn needle).length

/-- The WMI-merge step of `_collect_and_send_stats`: the first WMI dict with
a truthy `wmi_name` that is a substring of the NVML dict's model name is
merged into it (`update` also overwrites `"id"`); with no match the NVML
dict is kept as is. -/
def mergeWmi (wmi_gpu_list : List WmiData) (g : GpuStats) : GpuEntry :=
  match wmi_gpu_list.find?
      (fun w => !(strFalsy w.wmi_name) && strContains g.model (w.wmi_name.getD "")) with
  | some w => GpuEntry.merged { g with id := w.id } w
  | none => GpuEntry.device g

/-! ### The collection service (`GPUMonitorService`) -/

/-- The `stats_data` dict one sampling pass assembles
(`_collect_and_send_stats`, `gpu_monitor.py` lines 251-256 and 281-282). -/
structure StatsData where
  timestamp : Int
  active_gpus : Nat
  total_earnings : Int
  gpus : List GpuEntry
deriving DecidableEq, Repr

/-- The mutable attributes of a `GPUMonitorService` instance
(`BaseService.__init__` plus `GPUMonitorService.__init__`). -/
structure GPUMonitorService where
  name : String
  state : ServiceState
  health : ServiceHealth
  is_running : Bool
  is_critical : Bool
  max_recovery_attempts : Nat
  recovery_delay : Int
  start_time : Option Int
  monitoring_interval : Int
  last_collection_time : Option Int
  update_queue : Option (PyQueue StatsData)
  nvidia_initialized : Bool
  wmi_connection : Bool
deriving DecidableEq, Repr

/-- `GPUMonitorService.__init__` with its defaults (`name = "gpu_monitor"`,
`monitoring_interval = 5`), on a host where neither NVML nor WMI
initialization ran (no backend library available). -/
def GPUMonitorService.init (now : Int) : GPUMonitorService :=
  { name := "gpu_monitor"
    state := ServiceState.INIT
    health := ServiceHealth.init now
    is_running := false
    is_critical := false
    max_recovery_attempts := 3
    recovery_delay := 5
    start_time := none
    monitoring_interval := 5
    last_collection_time := none
    update_queue := none
    nvidia_initialized := false
    wmi_connection := false }

/-- What the outside world supplies to one sampling pass: the
`system_profiler`/`psutil` pipeline, the NVML device queries and the WMI
controller query. -/
structure CollectInputs where
  prof : ProfilerResult
  sysMain : Option SysSample
  sysFallback : Option SysSample
  nvidiaDevices : List NvidiaDeviceRaw
  wmiControllers : List WmiData
deriving DecidableEq, Repr

/-- The platform dispatch of `_collect_and_send_stats` (`gpu_monitor.py`
lines 258-279) computing `gpu_list`. -/
def collect_gpu_list (cfg : PlatformConfig) (nvidia_initialized : Bool)
    (wmi_connection : Bool) (inp : CollectInputs) : List GpuEntry :=
  if cfg.is_macos then
    (get_macos_gpu_info cfg.is_macos inp.prof inp.sysMain inp.sysFallback).map
      GpuEntry.device
  else if cfg.is_windows then
    let gpu_list :=
      if cfg.nvidia_available && nvidia_initialized then
        (get_nvidia_gpu_info nvidia_initialized inp.nvidiaDevices).map
          GpuEntry.device
      else []
    let wmi_gpu_list :=
      get_windows_wmi_gpu_info cfg.wmi_available wmi_connection inp.wmiControllers
    if !wmi_gpu_list.isEmpty then
      if !gpu_list.isEmpty then
        gpu_list.map (fun e =>
          match e with
          | GpuEntry.device g => mergeWmi wmi_gpu_list g
          | e => e)
      else wmi_gpu_list.map GpuEntry.wmiOnly
    else gpu_list
  else if cfg.is_linux && cfg.nvidia_available && nvidia_initialized then
    (get_nvidia_gpu_info nvidia_initialized inp.nvidiaDevices).map GpuEntry.device
  else []

/-- `stats_data["active_gpus"] = len(gpu_list) if any(g.get("model") !=
"System Stats" for g in gpu_list) else 0`. -/
def computeActiveGpus (gpus : List GpuEntry) : Nat :=
  if gpus.any (fun g => g.get_model != some "System Stats") then gpus.length
  else 0

/-- `GPUMonitorService._collect_and_send_stats` (`gpu_monitor.py` lines
249-293), run under `_collection_lock` (single pass at a time).  Returns the
service state after the pass and whether a full queue made it discard the
snapshot (`except queue.Full`).  A missing queue is only logged. -/
def GPUMonitorService.collect_and_send_stats (svc : GPUMonitorService)
    (cfg : PlatformConfig) (inp : CollectInputs) (now : Int) :
    GPUMonitorService × Bool :=
  let gpu_list := collect_gpu_list cfg svc.nvidia_initialized svc.wmi_connection inp
  let stats_data : StatsData :=
    { timestamp := now
      active_gpus := computeActiveGpus gpu_list
      total_earnings := 0
      gpus := gpu_list }
  let svc1 := { svc with last_collection_time := some now }
  match svc1.update_queue with
  | none => (svc1, false)
  | some q =>
      match q.put_nowait stats_data with
      | some q2 => ({ svc1 with update_queue := some q2 }, false)
      | none => (svc1, true)

/-- `GPUMonitorService.stop` (`gpu_monitor.py` lines 339-360).
`shutdown_raises` models `nvidia_smi.nvmlShutdown()` raising; the handler
logs and goes on (when it raises, the `nvidia_initialized = False`
assignment is skipped). -/
def GPUMonitorService.stop (svc : GPUMonitorService) (shutdown_raises : Bool) :
    Bool × GPUMonitorService :=
  if svc.state = ServiceState.STOPPED ∨ svc.state = ServiceState.STOPPING then
    (true, svc)
  else
    let svc1 := { svc with is_running := false, state := ServiceState.STOPPING }
    let svc2 :=
      if svc1.nvidia_initialized then
        if shutdown_raises then svc1
        else { svc1 with nvidia_initialized := false }
      else svc1
    let svc3 := { svc2 with wmi_connection := false }
    (true, { svc3 with state := ServiceState.STOPPED })

/-- How the monitoring loop of `GPUMonitorService.start` came to an end:
a concurrent `stop()` cleared `_is_running` (the loop breaks and `start`
falls through, returning `None`), the task was cancelled
(`asyncio.CancelledError`), or an exception escaped the loop's own
handling. -/
inductive LoopEnd where
  | stopRequested
  | cancelled
  | fatalError
deriving DecidableEq, Repr

/-- `GPUMonitorService.start` (`gpu_monitor.py` lines 295-336): the value the
coroutine returns (`none` models Python's implicit `None` on the
fall-through path) and the service state at that moment.  `start` is the
loop body: apart from the already-`RUNNING` fast path it returns only once
the loop has ended, and its `finally` clause always runs `stop()` before
the return value is delivered.  On the `stopRequested` path the concurrent
`stop()` that cleared `_is_running` has itself already driven the service to
`STOPPED`.  A fatal error during the initial collection pass behaves as
`fatalError` (same `except`/`finally` clauses). -/
def GPUMonitorService.start_run (svc : GPUMonitorService) (cfg : PlatformConfig)
    (inp : CollectInputs) (now : Int) (endKind : LoopEnd)
    (shutdown_raises : Bool) : Option Bool × GPUMonitorService :=
  if svc.state = ServiceState.RUNNING then (some true, svc)
  else
    let svc1 := { svc with
      is_running := true
      state := ServiceState.STARTING
      start_time := some now }
    let svc2 := (svc1.collect_and_send_stats cfg inp now).1
    let svc3 := { svc2 with state := ServiceState.RUNNING }
    match endKind with
    | LoopEnd.stopRequested =>
        let svc4 := (svc3.stop shutdown_raises).2
        (none, (svc4.stop shutdown_raises).2)
    | LoopEnd.cancelled =>
        let svc4 := { svc3 with state := ServiceState.STOPPED }
        (some true, (svc4.stop shutdown_raises).2)
    | LoopEnd.fatalError =>
        let svc4 := { svc3 with state := ServiceState.ERROR }
        (some false, (svc4.stop shutdown_raises).2)

/-- `GPUMonitorService.check_health` (`gpu_monitor.py` lines 362-390): a
fresh `ServiceHealth` whose `status` starts as `state == RUNNING`, is
cleared by the stall check when a collection happened more than
`monitoring_interval * 3` seconds ago, and whose `metrics` dict is filled
from the platform flags and service fields. -/
def GPUMonitorService.check_health (svc : GPUMonitorService)
    (cfg : PlatformConfig) (now : Int) : ServiceHealth :=
  let health0 := { ServiceHealth.init now with
    status := decide (svc.state = ServiceState.RUNNING)
    last_check := now }
  let health1 :=
    if !health0.status then
      let msg := "Service not in RUNNING state (current: " ++ svc.state.pystr ++ ")"
      { health0 with last_error := some msg }
    else
      match svc.last_collection_time with
      | some t =>
          let time_since_last := now - t
          if svc.monitoring_interval * 3 < time_since_last then
            let msg := "Data collection seems stalled (last update: "
              ++ toString time_since_last ++ ".0s ago)"
            { health0 with
              status := false
              last_error := some msg }
          else health0
      | none => health0
  { health1 with metrics :=
      [("state", MetricValue.str svc.state.value),
       ("last_collection",
         match svc.last_collection_time with
         | some t => MetricValue.num t
         | none => MetricValue.null),
       ("monitoring_interval", MetricValue.num svc.monitoring_interval),
       ("nvidia_available", MetricValue.flag cfg.nvidia_available),
       ("nvidia_initialized", MetricValue.flag svc.nvidia_initialized),
       ("wmi_available", MetricValue.flag cfg.wmi_available),
       ("is_macos", MetricValue.flag cfg.is_macos),
       ("is_windows", MetricValue.flag cfg.is_windows),
       ("is_linux", MetricValue.flag cfg.is_linux)] }

/-! ### The daemon supervisor (`src/daemon/core.py`) -/

/-- A registered service as `BeatriceDaemon.stop` interacts with it: its
registry name and whether its `stop()` raises when called. -/
structure DaemonService where
  name : String
  stop_raises : Bool
deriving DecidableEq, Repr

/-- One entry of `_service_tasks`: the task's name and whether it had
already finished on its own before the shutdown began. -/
structure ServiceTask where
  name : String
  done : Bool
deriving DecidableEq, Repr

/-- The `BeatriceDaemon` state that `stop()` touches. -/
structure BeatriceDaemon where
  is_running : Bool
  services : List DaemonService
  service_tasks : List ServiceTask
deriving DecidableEq, Repr

/-- Calling one registered service's `stop()`: an error result models the
exception the `except` clause of `BeatriceDaemon.stop` catches. -/
def serviceStopCall (s : DaemonService) : Except String Bool :=
  if s.stop_raises then Except.error ("stop failed: " ++ s.name)
  else Except.ok true

/-- The per-service loop of `BeatriceDaemon.stop` (`core.py` lines 129-137):
each `stop()` call is wrapped in `try`/`except`, so a raise is logged and
the iteration continues.  Returns, in registry order, each service's name
paired with whether its `stop()` raised. -/
def stopServicesLoop : List DaemonService → List (String × Bool)
  | [] => []
  | s :: rest =>
      match serviceStopCall s with
      | Except.ok _ => (s.name, false) :: stopServicesLoop rest
      | Except.error _ => (s.name, true) :: stopServicesLoop rest

/-- `BeatriceDaemon.stop` (`core.py` lines 102-139): a no-op when the daemon
is not running; otherwise it clears `_is_running`, cancels and gathers the
service tasks (with a bounded timeout) and empties `_service_tasks`, then
runs the per-service stop loop over the full registry regardless of which
tasks had already exited.  Returns the daemon state after the call and the
stop-call trace. -/
def BeatriceDaemon.stop (d : BeatriceDaemon) :
    BeatriceDaemon × List (String × Bool) :=
  if !d.is_running then (d, [])
  else
    let d1 := { d with is_running := false, service_tasks := [] }
    (d1, stopServicesLoop d.services)

/-! ### Concrete instances used to exercise the definitions -/

/-- A Linux host with no GPU library available (`IS_LINUX` true, NVML and
WMI absent). -/
def linuxNoBackend : PlatformConfig :=
  { is_macos := false
    is_windows := false
    is_linux := true
    nvidia_available := false
    wmi_available := false }

/-- A macOS host (`IS_MACOS` true; NVML and WMI never apply there). -/
def macOnly : PlatformConfig :=
  { is_macos := true
    is_windows := false
    is_linux := false
    nvidia_available := false
    wmi_available := false }

/-- A healthy `psutil` sample. -/
def sampleSys : SysSample :=
  { cpu_percent := 12, mem_used := 4096, mem_total := 8192 }

/-- Collection inputs on a host where every external query fails. -/
def emptyInputs : CollectInputs :=
  { prof := ProfilerResult.cmdFailed
    sysMain := none
    sysFallback := none
    nvidiaDevices := []
    wmiControllers := [] }

/-- Collection inputs where `system_profiler` is absent (`_run_command`
returned `None`) but `psutil` works fine on both call sites. -/
def profilerAbsentInputs : CollectInputs :=
  { prof := ProfilerResult.cmdFailed
    sysMain := some sampleSys
    sysFallback := some sampleSys
    nvidiaDevices := []
    wmiControllers := [] }

/-- A handoff queue with capacity 1 that is already full. -/
def fullQueue : PyQueue StatsData :=
  { maxsize := 1
    items := [{ timestamp := 0, active_gpus := 0, total_earnings := 0, gpus := [] }] }

/-- A collection service wired to the full capacity-1 queue. -/
def svcWithFullQueue : GPUMonitorService :=
  { GPUMonitorService.init 0 with update_queue := some fullQueue }

/-- A collection service wired to an empty unbounded queue (the daemon's
actual `queue.Queue()` has `maxsize = 0`). -/
def svcWithEmptyQueue : GPUMonitorService :=
  { GPUMonitorService.init 0 with update_queue := some { maxsize := 0, items := [] } }

/-- A running daemon with two registered services, the first of which raises
from its `stop()`, and whose first task already exited on its own. -/
def sampleDaemon : BeatriceDaemon :=
  { is_running := true
    services := [{ name := "gpu_monitor", stop_raises := true },
                 { name := "other", stop_raises := false }]
    service_tasks := [{ name := "Service_gpu_monitor", done := true },
                      { name := "Service_other", done := false }] }

/-! ### Helper lemmas -/

/-- `failedDepMarker` yields nothing exactly for a healthy dependency. -/
theorem failedDepMarker_eq_none (d : Dependency) :
    failedDepMarker d = none ↔ d.outcome = DepOutcome.healthy := by
  cases h : d.outcome <;> simp [failedDepMarker, h]

/-- `GPUMonitorService.stop` always reports success. -/
theorem gpu_stop_fst (svc : GPUMonitorService) (sr : Bool) :
    (svc.stop sr).1 = true := by
  unfold GPUMonitorService.stop
  split
  · rfl
  · split <;> rfl

/-- `GPUMonitorService.stop` on an already stopped or stopping service is a
pure no-op returning success. -/
theorem gpu_stop_noop (svc : GPUMonitorService) (sr : Bool)
    (h : svc.state = ServiceState.STOPPED ∨ svc.state = ServiceState.STOPPING) :
    svc.stop sr = (true, svc) := by
  unfold GPUMonitorService.stop
  rw [if_pos h]

/-- `GPUMonitorService.stop` on any other service leaves it `STOPPED`,
whether or not the NVML shutdown raised. -/
theorem gpu_stop_state (svc : GPUMonitorService) (sr : Bool)
    (h : ¬ (svc.state = ServiceState.STOPPED ∨ svc.state = ServiceState.STOPPING)) :
    (svc.stop sr).2.state = ServiceState.STOPPED := by
  unfold GPUMonitorService.stop
  rw [if_neg h]

/-- `check_health` reports unhealthy whenever the service is not `RUNNING`. -/
theorem check_health_not_running (svc : GPUMonitorService) (cfg : PlatformConfig)
    (now : Int) (h : svc.state ≠ ServiceState.RUNNING) :
    (svc.check_health cfg now).status = false := by
  simp [GPUMonitorService.check_health, h, ServiceHealth.init]

/-- After `n ≤ maxRecoveryAttempts` consecutive failed recovery cycles
starting from a fresh retry budget, the attempt counter equals `n`, the
budget is untouched, and (once at least one cycle ran) the state is
`ERROR`. -/
theorem failedRecoveries_spec (svc : BaseServiceData) (now : Int)
    (h0 : svc.health.recovery_attempts = 0) :
    ∀ n, n ≤ svc.max_recovery_attempts →
      (svc.failedRecoveries now n).health.recovery_attempts = n ∧
      (svc.failedRecoveries now n).max_recovery_attempts = svc.max_recovery_attempts ∧
      (1 ≤ n → (svc.failedRecoveries now n).state = ServiceState.ERROR) := by
  intro n
  induction n with
  | zero =>
      intro _
      exact ⟨h0, rfl, fun h => absurd h (by omega)⟩
  | succ k ih =>
      intro hle
      obtain ⟨ha, hm, _⟩ := ih (Nat.le_of_succ_le hle)
      have hguard : ¬ ((svc.failedRecoveries now k).max_recovery_attempts ≤
          (svc.failedRecoveries now k).health.recovery_attempts) := by
        rw [ha, hm]; omega
      simp only [BaseServiceData.failedRecoveries, BaseServiceData.recover,
        if_neg hguard]
      exact ⟨by simp [ha], by simp [hm], fun _ => by trivial⟩

/-- The per-service stop loop of the daemon reports one entry per registered
service, in registry order, raising or not. -/
theorem stopServicesLoop_names (svcs : List DaemonService) :
    (stopServicesLoop svcs).map Prod.fst = svcs.map DaemonService.name := by
  induction svcs with
  | nil => rfl
  | cons s rest ih =>
      unfold stopServicesLoop serviceStopCall
      split <;> simpa using ih

/-! ### Claims -/

/-- C1: once `health.recovery_attempts` has reached `max_recovery_attempts`
(after exactly that many consecutive failed recovery cycles), the service's
state is `ERROR`, and any further `recover()` call returns failure
immediately with the state set to `ERROR` and an empty effect trace — no
`stop()`, no sleep, no `start()`. -/
theorem recover_gives_up_after_max_attempts (svc : BaseServiceData)
    (now now2 : Int) (h0 : svc.health.recovery_attempts = 0)
    (h1 : 1 ≤ svc.max_recovery_attempts) :
    (svc.failedRecoveries now svc.max_recovery_attempts).state
      = ServiceState.ERROR ∧
    (svc.failedRecoveries now svc.max_recovery_attempts).health.recovery_attempts
      = svc.max_recovery_attempts ∧
    ∀ cycle,
      (svc.failedRecoveries now svc.max_recovery_attempts).recover now2 cycle
        = (false,
           { svc.failedRecoveries now svc.max_recovery_attempts with
             state := ServiceState.ERROR },
           []) := by
  obtain ⟨ha, hm, hst⟩ :=
    failedRecoveries_spec svc now h0 svc.max_recovery_attempts le_rfl
  refine ⟨hst h1, ha, ?_⟩
  intro cycle
  unfold BaseServiceData.recover
  rw [if_pos (by rw [ha, hm])]

/-- Witness for C1 at a concrete service: the default fresh service (budget
3), after 3 failed cycles, is in `ERROR` with 3 attempts recorded, and a
fourth `recover()` fails with no effects. -/
theorem recover_gives_up_witness :
    ((BaseServiceData.init "gpu_monitor" 0).failedRecoveries 5 3).state
      = ServiceState.ERROR ∧
    ((BaseServiceData.init "gpu_monitor" 0).failedRecoveries 5 3).health.recovery_attempts
      = 3 ∧
    ∀ cycle,
      (((BaseServiceData.init "gpu_monitor" 0).failedRecoveries 5 3).recover 9 cycle)
        = (false,
           { (BaseServiceData.init "gpu_monitor" 0).failedRecoveries 5 3 with
             state := ServiceState.ERROR },
           []) :=
  recover_gives_up_after_max_attempts (BaseServiceData.init "gpu_monitor" 0) 5 9
    rfl (by decide)

/-- C7: calling `stop()` on the collection service when it is already
`STOPPED` or `STOPPING` returns success and changes nothing at all — the
whole service record, backend handles included, is returned unchanged. -/
theorem stop_idempotent_when_stopped (svc : GPUMonitorService) (sr : Bool)
    (h : svc.state = ServiceState.STOPPED ∨ svc.state = ServiceState.STOPPING) :
    svc.stop sr = (true, svc) :=
  gpu_stop_noop svc sr h

/-- Witness for C7: a concrete stopped service with live-looking backend
fields is returned verbatim. -/
theorem stop_idempotent_witness :
    ({ GPUMonitorService.init 0 with
        state := ServiceState.STOPPED
        nvidia_initialized := true
        wmi_connection := true } : GPUMonitorService).stop true
      = (true,
         { GPUMonitorService.init 0 with
            state := ServiceState.STOPPED
            nvidia_initialized := true
            wmi_connection := true }) :=
  stop_idempotent_when_stopped
    { GPUMonitorService.init 0 with
        state := ServiceState.STOPPED
        nvidia_initialized := true
        wmi_connection := true } true (Or.inl rfl)

/-- C10: the collection service's `stop()` is total — for every starting
state and whether or not the NVML shutdown raises, it returns success
(`True`), and it either leaves the service `STOPPED` or (exactly on the
already-`STOPPED`/`STOPPING` fast path) returns it unchanged. -/
theorem stop_total_and_terminal (svc : GPUMonitorService) (sr : Bool) :
    (svc.stop sr).1 = true ∧
    ((svc.stop sr).2.state = ServiceState.STOPPED ∨
      ((svc.state = ServiceState.STOPPED ∨ svc.state = ServiceState.STOPPING) ∧
        (svc.stop sr).2 = svc)) := by
  refine ⟨gpu_stop_fst svc sr, ?_⟩
  by_cases h : svc.state = ServiceState.STOPPED ∨ svc.state = ServiceState.STOPPING
  · exact Or.inr ⟨h, by rw [gpu_stop_noop svc sr h]⟩
  · exact Or.inl (gpu_stop_state svc sr h)

/-- C8: `check_dependencies` succeeds exactly when every registered
dependency's health check reported healthy (a raising dependency counts as
unhealthy), and on failure `health.last_error` is the aggregate list naming
every failed dependency. -/
theorem check_dependencies_aggregate (svc : BaseServiceData)
    (deps : List Dependency) :
    ((svc.check_dependencies deps).1 = true ↔
      ∀ d ∈ deps, d.outcome = DepOutcome.healthy) ∧
    ((svc.check_dependencies deps).1 = false →
      (svc.check_dependencies deps).2.health.last_error =
        some ("Failed dependencies: " ++
          String.intercalate ", " (deps.filterMap failedDepMarker))) := by
  unfold BaseServiceData.check_dependencies
  by_cases hempty : deps.isEmpty
  · rw [List.isEmpty_iff] at hempty
    subst hempty
    simp
  · rw [if_neg hempty]
    by_cases hfail : (deps.filterMap failedDepMarker).isEmpty
    · rw [if_pos hfail]
      rw [List.isEmpty_iff, List.filterMap_eq_nil_iff] at hfail
      constructor
      · constructor
        · intro _ d hd
          exact (failedDepMarker_eq_none d).1 (hfail d hd)
        · intro _
          rfl
      · intro h
        exact absurd h (by simp)
    · rw [if_neg hfail]
      constructor
      · constructor
        · intro h
          exact absurd h (by simp)
        · intro hall
          exfalso
          apply hfail
          rw [List.isEmpty_iff, List.filterMap_eq_nil_iff]
          intro d hd
          exact (failedDepMarker_eq_none d).2 (hall d hd)
      · intro _
        rfl

/-- `check_health` on a `RUNNING` service whose last collection (if any) is
within the stall window reports healthy. -/
theorem check_health_running_fresh (svc : GPUMonitorService)
    (cfg : PlatformConfig) (now : Int) (h : svc.state = ServiceState.RUNNING)
    (hfresh : ∀ t, svc.last_collection_time = some t →
      now - t ≤ svc.monitoring_interval * 3) :
    (svc.check_health cfg now).status = true := by
  unfold GPUMonitorService.check_health
  cases hlc : svc.last_collection_time with
  | none => simp [h, hlc]
  | some t =>
      have hle := hfresh t hlc
      simp [h, hlc, if_neg (not_lt.2 hle)]

/-- Stopping twice from a not-yet-stopped state still ends `STOPPED` (the
second call is the no-op fast path). -/
theorem double_stop_state (s : GPUMonitorService) (sr : Bool)
    (h : ¬ (s.state = ServiceState.STOPPED ∨ s.state = ServiceState.STOPPING)) :
    ((s.stop sr).2.stop sr).2.state = ServiceState.STOPPED := by
  have h1 := gpu_stop_state s sr h
  rw [gpu_stop_noop ((s.stop sr).2) sr (Or.inl h1)]
  exact h1

/-- C2 (counterexample to the claim as stated): a concrete fresh service
whose monitoring loop is cancelled — `start()` returns the success value
`True`, yet at that moment the state is `STOPPED`, not `RUNNING` (the
`finally` clause has already run `stop()`). -/
theorem start_success_not_running_counterexample :
    ((GPUMonitorService.init 0).start_run linuxNoBackend emptyInputs 0
        LoopEnd.cancelled false).1 = some true ∧
    ((GPUMonitorService.init 0).start_run linuxNoBackend emptyInputs 0
        LoopEnd.cancelled false).2.state = ServiceState.STOPPED ∧
    ((GPUMonitorService.init 0).start_run linuxNoBackend emptyInputs 0
        LoopEnd.cancelled false).2.state ≠ ServiceState.RUNNING := by
  refine ⟨rfl, rfl, ?_⟩
  decide

/-- C2 (amended): `start()` returns with the state still `RUNNING` only on
the idempotent fast path — if the service is already `RUNNING`, `start()`
returns `True` leaving it untouched and an immediate `check_health()` is
healthy (absent a stall).  Any `start()` that actually enters the loop
returns — with any result — only once the loop has ended, at which point the
state is `STOPPED` and an immediate `check_health()` reports unhealthy. -/
theorem start_return_state_characterization (svc : GPUMonitorService)
    (cfg : PlatformConfig) (inp : CollectInputs) (now now2 : Int)
    (endKind : LoopEnd) (sr : Bool) :
    (svc.state = ServiceState.RUNNING →
      svc.start_run cfg inp now endKind sr = (some true, svc) ∧
      ((∀ t, svc.last_collection_time = some t →
          now2 - t ≤ svc.monitoring_interval * 3) →
        (svc.check_health cfg now2).status = true)) ∧
    (svc.state ≠ ServiceState.RUNNING →
      (svc.start_run cfg inp now endKind sr).2.state = ServiceState.STOPPED ∧
      ((svc.start_run cfg inp now endKind sr).2.check_health cfg now2).status
        = false) := by
  constructor
  · intro hrun
    refine ⟨?_, fun hfresh => check_health_running_fresh svc cfg now2 hrun hfresh⟩
    unfold GPUMonitorService.start_run
    rw [if_pos hrun]
  · intro hne
    have key : (svc.start_run cfg inp now endKind sr).2.state
        = ServiceState.STOPPED := by
      unfold GPUMonitorService.start_run
      rw [if_neg hne]
      cases endKind with
      | stopRequested =>
          dsimp only
          exact double_stop_state _ sr
            (by rintro (h | h) <;> exact ServiceState.noConfusion h)
      | cancelled =>
          dsimp only
          rw [gpu_stop_noop _ sr (Or.inl rfl)]
      | fatalError =>
          dsimp only
          exact gpu_stop_state _ sr
            (by rintro (h | h) <;> exact ServiceState.noConfusion h)
    refine ⟨key, ?_⟩
    apply check_health_not_running
    rw [key]
    decide

/-- C3: snapshot hand-off never blocks and respects the queue bound — a
sampling pass always leaves some queue in place; if the queue was bounded
and within its bound, it still is afterwards; and on a full queue the pass
leaves the queue exactly as it was and reports that the newest snapshot was
discarded (the logged `queue.Full` path). -/
theorem enqueue_nonblocking_bounded (svc : GPUMonitorService)
    (cfg : PlatformConfig) (inp : CollectInputs) (now : Int)
    (q : PyQueue StatsData) (hq : svc.update_queue = some q) :
    (∃ q2, (svc.collect_and_send_stats cfg inp now).1.update_queue = some q2 ∧
      (0 < q.maxsize → (q.items.length : Int) ≤ q.maxsize →
        (q2.items.length : Int) ≤ q.maxsize)) ∧
    ((0 < q.maxsize ∧ q.maxsize ≤ (q.items.length : Int)) →
      (svc.collect_and_send_stats cfg inp now).1.update_queue = some q ∧
      (svc.collect_and_send_stats cfg inp now).2 = true) := by
  unfold GPUMonitorService.collect_and_send_stats PyQueue.put_nowait
  dsimp only
  rw [hq]
  dsimp only
  by_cases hfull : 0 < q.maxsize ∧ q.maxsize ≤ (q.items.length : Int)
  · rw [if_pos hfull]
    exact ⟨⟨q, rfl, fun _ h2 => h2⟩, fun _ => ⟨rfl, rfl⟩⟩
  · rw [if_neg hfull]
    dsimp only
    refine ⟨⟨{ q with items := q.items ++
        [{ timestamp := now
           active_gpus := computeActiveGpus
             (collect_gpu_list cfg svc.nvidia_initialized svc.wmi_connection inp)
           total_earnings := 0
           gpus := collect_gpu_list cfg svc.nvidia_initialized
             svc.wmi_connection inp }] }, rfl, ?_⟩,
      fun hfull2 => absurd hfull2 hfull⟩
    intro h1 _
    have hlt : ¬ (q.maxsize ≤ (q.items.length : Int)) := fun hle => hfull ⟨h1, hle⟩
    simp only [List.length_append, List.length_cons, List.length_nil]
    push_cast
    omega

/-- Witness for C3 at the concrete full capacity-1 queue: the pass keeps the
queue unchanged and reports the snapshot as discarded. -/
theorem enqueue_nonblocking_witness :
    (∃ q2, (svcWithFullQueue.collect_and_send_stats linuxNoBackend emptyInputs 3).1.update_queue
        = some q2 ∧
      (0 < fullQueue.maxsize → (fullQueue.items.length : Int) ≤ fullQueue.maxsize →
        (q2.items.length : Int) ≤ fullQueue.maxsize)) ∧
    ((0 < fullQueue.maxsize ∧ fullQueue.maxsize ≤ (fullQueue.items.length : Int)) →
      (svcWithFullQueue.collect_and_send_stats linuxNoBackend emptyInputs 3).1.update_queue
        = some fullQueue ∧
      (svcWithFullQueue.collect_and_send_stats linuxNoBackend emptyInputs 3).2 = true) :=
  enqueue_nonblocking_bounded svcWithFullQueue linuxNoBackend emptyInputs 3
    fullQueue rfl

/-- C4: a `RUNNING` collection service whose last collection lies more than
`monitoring_interval * 3` seconds in the past reports unhealthy with a
populated `last_error`. -/
theorem check_health_stall_detection (svc : GPUMonitorService)
    (cfg : PlatformConfig) (now t : Int)
    (h1 : svc.state = ServiceState.RUNNING)
    (h2 : svc.last_collection_time = some t)
    (h3 : svc.monitoring_interval * 3 < now - t) :
    (svc.check_health cfg now).status = false ∧
    (svc.check_health cfg now).last_error.isSome = true := by
  constructor <;> simp [GPUMonitorService.check_health, h1, h2, if_pos h3]

/-- Witness for C4: the default 5-second-interval service, running, last
collection 16 seconds ago (16 > 15), reports unhealthy with an error
message. -/
theorem check_health_stall_witness :
    (({ GPUMonitorService.init 0 with
          state := ServiceState.RUNNING
          last_collection_time := some 0 } : GPUMonitorService).check_health
        linuxNoBackend 16).status = false ∧
    (({ GPUMonitorService.init 0 with
          state := ServiceState.RUNNING
          last_collection_time := some 0 } : GPUMonitorService).check_health
        linuxNoBackend 16).last_error.isSome = true :=
  check_health_stall_detection
    { GPUMonitorService.init 0 with
        state := ServiceState.RUNNING
        last_collection_time := some 0 }
    linuxNoBackend 16 0 rfl rfl (by decide)

/-- C5 (the code at the failing input): on macOS with no working backend —
`system_profiler` absent, so `_run_command` returns `None` — the `return []`
inside the `try` block bypasses the "System Stats" fallback even though
`psutil` works, and the sampling pass publishes a snapshot with an empty
device list (not exactly one pseudo-device) and `active_gpus = 0`. -/
theorem macos_no_backend_drops_fallback :
    get_macos_gpu_info true ProfilerResult.cmdFailed (some sampleSys)
        (some sampleSys) = [] ∧
    (svcWithEmptyQueue.collect_and_send_stats macOnly profilerAbsentInputs 7).1.update_queue
      = some { maxsize := 0
               items := [{ timestamp := 7
                           active_gpus := 0
                           total_earnings := 0
                           gpus := [] }] } := by
  exact ⟨rfl, rfl⟩

/-- C6: stopping a running daemon invokes `stop()` on every registered
service exactly once, in registry order — independently of which tasks had
already exited and of which services raise from their `stop()` — and the
shutdown completes with the task list cleared and the registry intact. -/
theorem daemon_stop_stops_every_service (d : BeatriceDaemon)
    (h : d.is_running = true) :
    (d.stop).2.map Prod.fst = d.services.map DaemonService.name ∧
    (d.stop).1 = { d with is_running := false, service_tasks := [] } := by
  unfold BeatriceDaemon.stop
  rw [h]
  exact ⟨stopServicesLoop_names d.services, rfl⟩

/-- Witness for C6: a concrete running daemon whose first service raises
from `stop()` and whose first task had already exited — both services still
get their `stop()` call and the shutdown completes. -/
theorem daemon_stop_witness :
    (sampleDaemon.stop).2.map Prod.fst = ["gpu_monitor", "other"] ∧
    (sampleDaemon.stop).1
      = { sampleDaemon with is_running := false, service_tasks := [] } :=
  daemon_stop_stops_every_service sampleDaemon rfl

/-- C9: a `RUNNING` collection service that has never completed a collection
pass (`_last_collection_time` unset) reports healthy from `check_health()`
no matter how much time has passed — stall detection only engages after the
first collection. -/
theorem check_health_before_first_collection (svc : GPUMonitorService)
    (cfg : PlatformConfig) (now : Int)
    (h1 : svc.state = ServiceState.RUNNING)
    (h2 : svc.last_collection_time = none) :
    (svc.check_health cfg now).status = true := by
  simp [GPUMonitorService.check_health, h1, h2]

/-- Witness for C9: a freshly-running service checked a million seconds
after construction still reports healthy. -/
theorem check_health_no_collection_witness :
    (({ GPUMonitorService.init 0 with
          state := ServiceState.RUNNING } : GPUMonitorService).check_health
        linuxNoBackend 1000000).status = true :=
  check_health_before_first_collection
    { GPUMonitorService.init 0 with state := ServiceState.RUNNING }
    linuxNoBackend 1000000 rfl rfl

end Beatrice
